import Mathlib

/-!
Verification of the mix-generation engine of AppleMusicGetReady
(`src/services/playbackEngine.ts`, duplicated as `src/unnamed/part_009`).

The engine's floating-point arithmetic (`Math.round`, `Math.sin`, IEEE
doubles) is modelled by exact real arithmetic: `Math.round x` becomes
`round x = ⌊x + 1/2⌋` (both round half toward positive infinity) and
`Math.sin` becomes `Real.sin`.  The list-processing part of the engine
(filtering, interleaving, fallback fill) is modelled computably over an
explicit `Track` structure; the `Math.random`-based `shuffleArray` is
modelled by an arbitrary function parameter (theorems that need it assume
it permutes its input, counterexamples instantiate it with the identity,
which is one of the shuffles `Math.random` can produce).
-/

namespace AppleMusicGetReady

/-- Constant `DISCOVERY_ZONES.ZERO_CUTOFF` from `src/constants.tsx`. -/
noncomputable def DISCOVERY_ZONES_ZERO_CUTOFF : ℝ := 0.0

/-- Interface `MoodRecipe` of `playbackEngine.ts` (six channel counts plus
the discovery count, all integers produced by `Math.round`). -/
structure MoodRecipe where
  liked : ℤ
  shazam : ℤ
  acoustic : ℤ
  a7xCore : ℤ
  a7xSimilar : ℤ
  rap : ℤ
  discovery : ℤ
deriving DecidableEq

/-- `const likedWeight = Math.max(0, 1 - mood * 1.2)`. -/
noncomputable def likedWeight (mood : ℝ) : ℝ := max 0 (1 - mood * 1.2)

/-- `const acousticWeight = Math.max(0, 1 - mood * 1.5)`. -/
noncomputable def acousticWeight (mood : ℝ) : ℝ := max 0 (1 - mood * 1.5)

/-- `const shazamWeight = 0.3 + Math.sin(mood * Math.PI) * 0.4`. -/
noncomputable def shazamWeight (mood : ℝ) : ℝ := 0.3 + Real.sin (mood * Real.pi) * 0.4

/-- `const a7xCoreWeight = 0.35`. -/
noncomputable def a7xCoreWeight : ℝ := 0.35

/-- `const a7xSimilarWeight = mood * 0.9`. -/
noncomputable def a7xSimilarWeight (mood : ℝ) : ℝ := mood * 0.9

/-- `const rapWeight = Math.max(0, (mood - 0.4) * 2.0)`. -/
noncomputable def rapWeight (mood : ℝ) : ℝ := max 0 ((mood - 0.4) * 2.0)

/-- `const totalWeight = likedWeight + acousticWeight + shazamWeight +
a7xCoreWeight + a7xSimilarWeight + rapWeight`. -/
noncomputable def totalWeight (mood : ℝ) : ℝ :=
  likedWeight mood + acousticWeight mood + shazamWeight mood + a7xCoreWeight +
    a7xSimilarWeight mood + rapWeight mood

/-- `const allocate = (w) => totalWeight > 0 ? Math.round((w / totalWeight) * sourceTotal) : 0`. -/
noncomputable def allocate (mood : ℝ) (sourceTotal : ℤ) (w : ℝ) : ℤ :=
  if 0 < totalWeight mood then round (w / totalWeight mood * (sourceTotal : ℝ)) else 0

/-- `const discoveryCount = discoverLevel <= DISCOVERY_ZONES.ZERO_CUTOFF ? 0
: Math.round(playlistLength * discoverLevel * 0.4)`. -/
noncomputable def discoveryCountOf (playlistLength : ℤ) (discoverLevel : ℝ) : ℤ :=
  if discoverLevel ≤ DISCOVERY_ZONES_ZERO_CUTOFF then 0
  else round ((playlistLength : ℝ) * discoverLevel * 0.4)

/-- `calculateMoodRecipe` from `playbackEngine.ts` (identical in
`src/unnamed/part_009` and `src/services/playbackEngine.ts`). -/
noncomputable def calculateMoodRecipe (moodLevel : ℝ) (playlistLength : ℤ)
    (discoverLevel : ℝ) : MoodRecipe :=
  let mood := max 0 (min 1 moodLevel)
  let discoveryCount := discoveryCountOf playlistLength discoverLevel
  let sourceTotal := playlistLength - discoveryCount
  let liked := allocate mood sourceTotal (likedWeight mood)
  let acoustic := allocate mood sourceTotal (acousticWeight mood)
  let shazam := allocate mood sourceTotal (shazamWeight mood)
  let a7xCore := allocate mood sourceTotal a7xCoreWeight
  let a7xSim := allocate mood sourceTotal (a7xSimilarWeight mood)
  let rap := allocate mood sourceTotal (rapWeight mood)
  let allocated := liked + acoustic + shazam + a7xCore + a7xSim + rap
  let drift := sourceTotal - allocated
  { liked := liked + drift, shazam := shazam, acoustic := acoustic,
    a7xCore := a7xCore, a7xSimilar := a7xSim, rap := rap,
    discovery := discoveryCount }

/-- Minimal track shape used by the engine: of a `SpotifyTrack` the engine
itself only ever reads `id`, `is_local` and `is_playable`; `name` is kept so
that two distinct entries can share an id.  `is_playable` is an `Option`
because the JS check is `t.is_playable !== false` (an absent field passes). -/
structure Track where
  id : ℕ
  name : String
  is_local : Bool
  is_playable : Option Bool
deriving DecidableEq

/-- The id projection of a track list, used to state duplicate-freedom. -/
def trackIds (l : List Track) : List ℕ := l.map Track.id

/-- A remotely playable, non-local track with the given id and title, used
to build concrete inputs. -/
def mkTrack (n : ℕ) (s : String) : Track :=
  { id := n, name := s, is_local := false, is_playable := none }

/-- JS `arr.slice(0, n)`: for `n ≥ 0` the first `n` elements; a negative
`n` counts from the end of the array (`slice(0, -1)` drops the last
element).  Needed because recipe counts are fed to `slice` and can be
negative after the drift correction. -/
def sliceTo {α : Type} (l : List α) (n : ℤ) : List α :=
  if 0 ≤ n then l.take n.toNat else l.take (l.length - (-n).toNat)

/-- `private take(pool, n)` of the engine: `this.shuffleArray(pool).slice(0, n)`.
The `Math.random`-driven `shuffleArray` is passed in as a function. -/
def takeShuffled (shuffle : List Track → List Track) (pool : List Track) (n : ℤ) :
    List Track :=
  sliceTo (shuffle pool) n

/-- `private dedup(pool, existing)`: keep the pool entries whose id does not
occur in `existing` (internal duplicates of `pool` are NOT removed). -/
def dedup (pool existing : List Track) : List Track :=
  pool.filter (fun t => !(existing.any (fun e => e.id == t.id)))

/-- `private trackFilter`: `!t.is_local && t.is_playable !== false &&
!BlockStore.isBlocked(t.id) && (!CooldownStore.isRestricted(t.id) || USE_MOCK_DATA)`.
The two stores and the mock flag are passed in as parameters. -/
def trackFilter (isBlocked isRestricted : ℕ → Bool) (useMock : Bool) (t : Track) : Bool :=
  !t.is_local && !(t.is_playable == some false) && !(isBlocked t.id) &&
    (!(isRestricted t.id) || useMock)

/-- One iteration of `for (const queue of sourceQueues)` in the interleave
loop of `generateSmartMixResult`: empty queues are skipped (`continue`);
otherwise the head is popped unconditionally (`queue.shift()`), appended to
the result if its id is not already present (setting `anyAdded`), and the
pass `break`s once the result has reached the target length.  Returns the
updated queues, the updated result, and the `anyAdded` flag. -/
def onePass (target : ℕ) :
    List (List Track) → List Track → Bool → List (List Track) × List Track × Bool
  | [], result, anyAdded => ([], result, anyAdded)
  | [] :: qs, result, anyAdded =>
    let r := onePass target qs result anyAdded
    ([] :: r.1, r.2)
  | (t :: rest) :: qs, result, anyAdded =>
    let dup := result.any (fun x => x.id == t.id)
    let result2 := bif dup then result else result ++ [t]
    let added2 := bif dup then anyAdded else true
    if target ≤ result2.length then (rest :: qs, result2, added2)
    else
      let r := onePass target qs result2 added2
      (rest :: r.1, r.2)

/-- The `while (resultTracks.length < totalTarget && anyAdded)` loop of
`generateSmartMixResult`, with explicit fuel to make it structurally
recursive and computable.  Each executed pass either appends at least one
track or clears `anyAdded` and thereby ends the loop, so `target + 1` units
of fuel always suffice from an empty result (`interleaveGo_exit` below
proves the returned state satisfies the loop's exit condition, and
`interleaveGo_fuel_stable` proves the value is independent of any further
fuel). -/
def interleaveGo (target : ℕ) :
    ℕ → List (List Track) → List Track → Bool → List (List Track) × List Track × Bool
  | 0, queues, result, anyAdded => (queues, result, anyAdded)
  | fuel + 1, queues, result, anyAdded =>
    if result.length < target ∧ anyAdded = true then
      let p := onePass target queues result false
      interleaveGo target fuel p.1 p.2.1 p.2.2
    else (queues, result, anyAdded)

/-- The interleave loop as invoked by the engine: empty initial result,
`anyAdded` initialized to `true`. -/
def interleaveResultState (target : ℕ) (queues : List (List Track)) :
    List (List Track) × List Track × Bool :=
  interleaveGo target (target + 1) queues [] true

/-- The track shape produced by `normalizeTrack` (of its output fields the
engine and these claims use only the id and the `isNew` discovery mark). -/
structure NormTrack where
  id : ℕ
  isNew : Bool
deriving DecidableEq

/-- `RunResult` as produced by `mapToRunResult`: normalized ordered tracks,
the per-channel summary string and the optional non-fatal warning. -/
structure RunResultM where
  tracks : List NormTrack
  sourceSummary : String
  warning : Option String
deriving DecidableEq

/-- `normalizeTrack(t, isNew)` (id-relevant part). -/
def normalizeTrack (t : Track) (isNew : Bool) : NormTrack :=
  { id := t.id, isNew := isNew }

/-- `private mapToRunResult`: normalizes every track, marking as new the
ones whose id occurs among the discovery tracks. -/
def mapToRunResult (tracks : List Track) (sourceSummary : String)
    (discoveryTracks : List Track) (warning : Option String) : RunResultM :=
  { tracks := tracks.map (fun t => normalizeTrack t ((discoveryTracks.map Track.id).contains t.id)),
    sourceSummary := sourceSummary,
    warning := warning }

/-- The `if (resultTracks.length < totalTarget)` fallback block of
`generateSmartMixResult`: when the interleaved result is short, append from
the already-shuffled union of the fetched pools after removing ids already
present, and produce the warning string; otherwise leave the result alone
with no warning. -/
def fallbackFill (target : ℕ) (unionShuffled resultTracks : List Track) :
    List Track × Option String :=
  if resultTracks.length < target then
    let needed := target - resultTracks.length
    let fallbackPool := dedup unionShuffled resultTracks
    (resultTracks ++ fallbackPool.take needed,
      some ("Some sources were limited. Added " ++
        toString (min needed fallbackPool.length) ++ " fallback tracks."))
  else (resultTracks, none)

/-- The pure tail of `generateSmartMixResult` after all pools have been
fetched and filtered: per-recipe selection (`take`), the seven source queues
in their priority order, the interleave loop, the fallback fill with its
warning, the summary string, and the final `slice(0, totalTarget)` feeding
`mapToRunResult`.  `shuffle i` models the i-th `shuffleArray` call site. -/
def generateSmartMixCore (shuffle : ℕ → List Track → List Track) (target : ℕ)
    (recipe : MoodRecipe)
    (likedPool shazamPool acousticPool rapPool a7xCorePool a7xSimilarPool
      discoveryTracks : List Track) : RunResultM :=
  let selLiked := takeShuffled (shuffle 0) likedPool recipe.liked
  let selShazam := takeShuffled (shuffle 1) shazamPool recipe.shazam
  let selAcoustic := takeShuffled (shuffle 2) acousticPool recipe.acoustic
  let selA7xCore := takeShuffled (shuffle 3) a7xCorePool recipe.a7xCore
  let selA7xSimilar := takeShuffled (shuffle 4) a7xSimilarPool recipe.a7xSimilar
  let selRap := takeShuffled (shuffle 5) rapPool recipe.rap
  let selDiscovery := sliceTo discoveryTracks recipe.discovery
  let sourceQueues := [selLiked, selAcoustic, selShazam, selA7xCore,
    selA7xSimilar, selRap, selDiscovery]
  let resultTracks := (interleaveResultState target sourceQueues).2.1
  let p := fallbackFill target
    (shuffle 6 (likedPool ++ shazamPool ++ acousticPool ++ rapPool ++ a7xCorePool))
    resultTracks
  let summary := "Liked " ++ toString selLiked.length ++
    " • 90sAltRock " ++ toString selAcoustic.length ++
    " • Shazam " ++ toString selShazam.length ++
    " • A7X " ++ toString (selA7xCore.length + selA7xSimilar.length) ++
    " • Rap " ++ toString selRap.length ++
    " • New " ++ toString selDiscovery.length
  mapToRunResult (p.1.take target) summary discoveryTracks p.2

/-- `getTracks(...).then(t => t.filter(this.trackFilter))`: a fetch outcome
(`Except.error` models a rejected promise) with the filter applied on
success.  No `.catch` here — a rejection passes through. -/
def filterPool (filt : Track → Bool) :
    Except String (List Track) → Except String (List Track)
  | Except.ok l => Except.ok (l.filter filt)
  | Except.error e => Except.error e

/-- `private fetchA7XStation`: `getTracks('a7x_deep', 80).then(filter).catch(() => [])`,
returning `{ core, similar: [] }` — this fetch alone is guarded by `.catch`. -/
def fetchA7XStationCore (filt : Track → Bool) :
    Except String (List Track) → List Track × List Track
  | Except.ok l => (l.filter filt, [])
  | Except.error _ => ([], [])

/-- The pure tail of `fetchDiscoveryTracks` given the per-seed catalog
search responses: flatten, shuffle, drop ids already known (liked + shazam
pools), truncate to the requested count.  No block or cooldown check. -/
def fetchDiscoveryCore (shuffle : List Track → List Track)
    (searchPools : List (List Track)) (knownTracks : List Track) (count : ℤ) :
    List Track :=
  let knownIds := knownTracks.map Track.id
  sliceTo ((shuffle searchPools.flatten).filter (fun t => !(knownIds.contains t.id))) count

/-- `generateSmartMixResult` from the recipe on: the `Promise.all` over the
liked/shazam/acoustic/rap fetches (an `Except.bind` chain — any rejection
aborts the run), the `.catch`-guarded A7X fetch, the conditional discovery
resolution, and the pure core.  The recipe is the `calculateMoodRecipe`
output; `discoverLevel` enters the remaining code only through the
comparison with `DISCOVERY_ZONES.ZERO_CUTOFF = 0`, modelled on `ℚ` to stay
decidable. -/
def generateSmartMixRun (shuffle : ℕ → List Track → List Track)
    (isBlocked isRestricted : ℕ → Bool) (useMock : Bool)
    (target : ℕ) (recipe : MoodRecipe) (discoverLevel : ℚ)
    (fetchLiked fetchShazam fetchAcoustic fetchRap fetchA7X : Except String (List Track))
    (searchPools : List (List Track)) : Except String RunResultM :=
  (filterPool (trackFilter isBlocked isRestricted useMock) fetchLiked).bind fun likedPool =>
  (filterPool (trackFilter isBlocked isRestricted useMock) fetchShazam).bind fun shazamPool =>
  (filterPool (trackFilter isBlocked isRestricted useMock) fetchAcoustic).bind fun acousticPool =>
  (filterPool (trackFilter isBlocked isRestricted useMock) fetchRap).bind fun rapPool =>
  let a7xPool := fetchA7XStationCore (trackFilter isBlocked isRestricted useMock) fetchA7X
  let discoveryTracks :=
    if 0 < recipe.discovery ∧ 0 < discoverLevel then
      fetchDiscoveryCore (shuffle 7) searchPools (likedPool ++ shazamPool) recipe.discovery
    else []
  Except.ok (generateSmartMixCore shuffle target recipe likedPool shazamPool
    acousticPool rapPool a7xPool.1 a7xPool.2 discoveryTracks)

/-- `private generateSingleSourceResult` (pure tail): fetch and filter the
pool, take `totalTarget` from its shuffle, throw when that is empty, attach
a warning when it is short. -/
def generateSingleSourceCore (shuffle : List Track → List Track) (filt : Track → Bool)
    (fetchPool : Except String (List Track)) (target : ℕ) (optionName : String) :
    Except String RunResultM :=
  (filterPool filt fetchPool).bind fun pool =>
  let tracks := takeShuffled shuffle pool (target : ℤ)
  if tracks.length = 0 then
    Except.error ("No tracks found for " ++ optionName ++
      ". Check that your playlists transferred to Apple Music.")
  else
    let warning := if tracks.length < target then
        some ("Only " ++ toString tracks.length ++ " tracks available from " ++
          optionName ++ ".")
      else none
    Except.ok (mapToRunResult tracks
      (optionName ++ ": " ++ toString tracks.length ++ " tracks") [] warning)

/-- C1: for every mood in `[0,1]`, discoverLevel in `[0,1]` and integer
targetLength `≥ 1`, the six channel counts of the Recipe plus its discovery
count sum to targetLength exactly (the drift correction makes the total exact). -/
theorem c1_recipe_total_eq_target (mood discoverLevel : ℝ) (L : ℤ)
    (hm0 : 0 ≤ mood) (hm1 : mood ≤ 1)
    (hd0 : 0 ≤ discoverLevel) (hd1 : discoverLevel ≤ 1) (hL : 1 ≤ L) :
    (calculateMoodRecipe mood L discoverLevel).liked +
      (calculateMoodRecipe mood L discoverLevel).shazam +
      (calculateMoodRecipe mood L discoverLevel).acoustic +
      (calculateMoodRecipe mood L discoverLevel).a7xCore +
      (calculateMoodRecipe mood L discoverLevel).a7xSimilar +
      (calculateMoodRecipe mood L discoverLevel).rap +
      (calculateMoodRecipe mood L discoverLevel).discovery = L := by
  simp only [calculateMoodRecipe]
  ring

/-- Witness for C1 at mood 0, discoverLevel 0, targetLength 35. -/
theorem c1_recipe_total_eq_target_witness :
    (calculateMoodRecipe 0 35 0).liked + (calculateMoodRecipe 0 35 0).shazam +
      (calculateMoodRecipe 0 35 0).acoustic + (calculateMoodRecipe 0 35 0).a7xCore +
      (calculateMoodRecipe 0 35 0).a7xSimilar + (calculateMoodRecipe 0 35 0).rap +
      (calculateMoodRecipe 0 35 0).discovery = 35 :=
  c1_recipe_total_eq_target 0 0 35 (by norm_num) (by norm_num) (by norm_num)
    (by norm_num) (by norm_num)

/-- The zero cutoff constant is the real number zero. -/
theorem zero_cutoff_eq : DISCOVERY_ZONES_ZERO_CUTOFF = 0 := by
  unfold DISCOVERY_ZONES_ZERO_CUTOFF; norm_num

/-- The clamped mood stays in `[0,1]`. -/
theorem clamp_mem (m : ℝ) : 0 ≤ max 0 (min 1 m) ∧ max 0 (min 1 m) ≤ 1 :=
  ⟨le_max_left 0 _, max_le zero_le_one (min_le_left 1 m)⟩

/-- At mood 1 the total weight evaluates to `2.75` (using `sin π = 0`). -/
theorem totalWeight_one : totalWeight 1 = 2.75 := by
  unfold totalWeight likedWeight acousticWeight shazamWeight a7xCoreWeight
    a7xSimilarWeight rapWeight
  simp only [one_mul, Real.sin_pi]
  norm_num [max_def]

/-- At mood 1 the allocator divides by total weight `2.75`. -/
theorem allocate_one (S : ℤ) (w : ℝ) : allocate 1 S w = round (w / 2.75 * (S : ℝ)) := by
  unfold allocate
  rw [totalWeight_one, if_pos (by norm_num : (0:ℝ) < 2.75)]

/-- Channel-count evaluation of the recipe at mood 1, length 35, discovery 0:
the four roundings 3.818→4, 4.455→4, 11.455→11, 15.273→15 sum to 34, so the
drift `+1` lands on the liked channel. -/
theorem recipe_eval_1_35_0 : calculateMoodRecipe 1 35 0 =
    { liked := 1, shazam := 4, acoustic := 0, a7xCore := 4, a7xSimilar := 11,
      rap := 15, discovery := 0 } := by
  have hc : max 0 (min 1 (1:ℝ)) = 1 := by norm_num
  have hd : discoveryCountOf 35 0 = 0 := by
    unfold discoveryCountOf
    rw [zero_cutoff_eq, if_pos le_rfl]
  have h1 : allocate 1 35 (likedWeight 1) = 0 := by
    rw [allocate_one]
    unfold likedWeight
    norm_num [max_def, round_zero]
  have h2 : allocate 1 35 (acousticWeight 1) = 0 := by
    rw [allocate_one]
    unfold acousticWeight
    norm_num [max_def, round_zero]
  have h3 : allocate 1 35 (shazamWeight 1) = 4 := by
    rw [allocate_one]
    unfold shazamWeight
    simp only [one_mul, Real.sin_pi]
    rw [round_eq, Int.floor_eq_iff]
    norm_num
  have h4 : allocate 1 35 a7xCoreWeight = 4 := by
    rw [allocate_one]
    unfold a7xCoreWeight
    rw [round_eq, Int.floor_eq_iff]
    norm_num
  have h5 : allocate 1 35 (a7xSimilarWeight 1) = 11 := by
    rw [allocate_one]
    unfold a7xSimilarWeight
    rw [round_eq, Int.floor_eq_iff]
    norm_num
  have h6 : allocate 1 35 (rapWeight 1) = 15 := by
    rw [allocate_one]
    unfold rapWeight
    rw [show max 0 (((1:ℝ) - 0.4) * 2.0) = 1.2 by norm_num [max_def],
      round_eq, Int.floor_eq_iff]
    norm_num
  simp only [calculateMoodRecipe, hc, hd, sub_zero, h1, h2, h3, h4, h5, h6]
  norm_num [MoodRecipe.mk.injEq]

/-- Channel-count evaluation of the recipe at mood 1, length 23, discovery 0:
the roundings 2.509→3, 2.927→3, 7.527→8, 10.036→10 sum to 24 > 23, so the
drift is `-1` and the liked count becomes `-1`. -/
theorem recipe_eval_1_23_0 : calculateMoodRecipe 1 23 0 =
    { liked := -1, shazam := 3, acoustic := 0, a7xCore := 3, a7xSimilar := 8,
      rap := 10, discovery := 0 } := by
  have hc : max 0 (min 1 (1:ℝ)) = 1 := by norm_num
  have hd : discoveryCountOf 23 0 = 0 := by
    unfold discoveryCountOf
    rw [zero_cutoff_eq, if_pos le_rfl]
  have h1 : allocate 1 23 (likedWeight 1) = 0 := by
    rw [allocate_one]
    unfold likedWeight
    norm_num [max_def, round_zero]
  have h2 : allocate 1 23 (acousticWeight 1) = 0 := by
    rw [allocate_one]
    unfold acousticWeight
    norm_num [max_def, round_zero]
  have h3 : allocate 1 23 (shazamWeight 1) = 3 := by
    rw [allocate_one]
    unfold shazamWeight
    simp only [one_mul, Real.sin_pi]
    rw [round_eq, Int.floor_eq_iff]
    norm_num
  have h4 : allocate 1 23 a7xCoreWeight = 3 := by
    rw [allocate_one]
    unfold a7xCoreWeight
    rw [round_eq, Int.floor_eq_iff]
    norm_num
  have h5 : allocate 1 23 (a7xSimilarWeight 1) = 8 := by
    rw [allocate_one]
    unfold a7xSimilarWeight
    rw [round_eq, Int.floor_eq_iff]
    norm_num
  have h6 : allocate 1 23 (rapWeight 1) = 10 := by
    rw [allocate_one]
    unfold rapWeight
    rw [show max 0 (((1:ℝ) - 0.4) * 2.0) = 1.2 by norm_num [max_def],
      round_eq, Int.floor_eq_iff]
    norm_num
  simp only [calculateMoodRecipe, hc, hd, sub_zero, h1, h2, h3, h4, h5, h6]
  norm_num [MoodRecipe.mk.injEq]

/-- C4 counterexample: at mood 1, discoverLevel 0, targetLength 35 the
primary-personal (liked) channel count is 1, not 0 — the rounding drift of
`+1` is absorbed into it, so the claim "liked count = 0" is false. -/
theorem c4_counterexample : (calculateMoodRecipe 1 35 0).liked ≠ 0 := by
  rw [recipe_eval_1_35_0]
  decide

/-- C4 (amended): at mood 1, discoverLevel 0, targetLength 35 the
curated-genre (acoustic) count is 0 but the primary-personal (liked) count is
1 (it absorbs the rounding drift); the similar-artist (11) and high-intensity
rap (15) channels receive the largest counts. -/
theorem c4_amended :
    calculateMoodRecipe 1 35 0 =
      { liked := 1, shazam := 4, acoustic := 0, a7xCore := 4, a7xSimilar := 11,
        rap := 15, discovery := 0 } ∧
    (calculateMoodRecipe 1 35 0).acoustic = 0 ∧
    (calculateMoodRecipe 1 35 0).liked = 1 ∧
    (calculateMoodRecipe 1 35 0).liked ≤ (calculateMoodRecipe 1 35 0).a7xSimilar ∧
    (calculateMoodRecipe 1 35 0).shazam ≤ (calculateMoodRecipe 1 35 0).a7xSimilar ∧
    (calculateMoodRecipe 1 35 0).acoustic ≤ (calculateMoodRecipe 1 35 0).a7xSimilar ∧
    (calculateMoodRecipe 1 35 0).a7xCore ≤ (calculateMoodRecipe 1 35 0).a7xSimilar ∧
    (calculateMoodRecipe 1 35 0).a7xSimilar ≤ (calculateMoodRecipe 1 35 0).rap := by
  rw [recipe_eval_1_35_0]
  refine ⟨rfl, ?_⟩
  decide

/-- C5 counterexample: at mood 1, discoverLevel 0, targetLength 23 the liked
channel count after drift correction is `-1`, a negative integer, so the
claim that every channel count is non-negative is false. -/
theorem c5_counterexample :
    (calculateMoodRecipe 1 23 0).liked = -1 ∧ (calculateMoodRecipe 1 23 0).liked < 0 := by
  rw [recipe_eval_1_23_0]
  decide

/-- Rounding a non-negative real gives a non-negative integer. -/
theorem round_nonneg_of_nonneg {x : ℝ} (hx : 0 ≤ x) : 0 ≤ round x := by
  rw [round_eq]
  exact Int.floor_nonneg.mpr (by linarith)

/-- The liked weight is non-negative. -/
theorem likedWeight_nonneg (m : ℝ) : 0 ≤ likedWeight m := le_max_left 0 _

/-- The acoustic weight is non-negative. -/
theorem acousticWeight_nonneg (m : ℝ) : 0 ≤ acousticWeight m := le_max_left 0 _

/-- The rap weight is non-negative. -/
theorem rapWeight_nonneg (m : ℝ) : 0 ≤ rapWeight m := le_max_left 0 _

/-- The similar-artist weight is non-negative for non-negative mood. -/
theorem a7xSimilarWeight_nonneg {m : ℝ} (hm0 : 0 ≤ m) : 0 ≤ a7xSimilarWeight m :=
  mul_nonneg hm0 (by norm_num)

/-- For mood in `[0,1]` the Shazam weight is at least `0.3` because
`sin (mood * π)` is non-negative on `[0, π]`. -/
theorem shazamWeight_ge {m : ℝ} (hm0 : 0 ≤ m) (hm1 : m ≤ 1) :
    (0.3 : ℝ) ≤ shazamWeight m := by
  unfold shazamWeight
  have hsin : 0 ≤ Real.sin (m * Real.pi) := by
    apply Real.sin_nonneg_of_nonneg_of_le_pi
    · exact mul_nonneg hm0 Real.pi_pos.le
    · calc m * Real.pi ≤ 1 * Real.pi :=
            mul_le_mul_of_nonneg_right hm1 Real.pi_pos.le
        _ = Real.pi := one_mul _
  nlinarith

/-- For mood in `[0,1]` the total weight is strictly positive (it is at
least `0.3 + 0.35 = 0.65`), so the allocator's division guard is passed. -/
theorem totalWeight_pos {m : ℝ} (hm0 : 0 ≤ m) (hm1 : m ≤ 1) : 0 < totalWeight m := by
  unfold totalWeight
  have h1 := likedWeight_nonneg m
  have h2 := acousticWeight_nonneg m
  have h3 := shazamWeight_ge hm0 hm1
  have h4 := a7xSimilarWeight_nonneg hm0
  have h5 := rapWeight_nonneg m
  have h6 : a7xCoreWeight = 0.35 := rfl
  nlinarith

/-- An allocation for a non-negative weight out of a non-negative source
total is non-negative. -/
theorem allocate_nonneg {m : ℝ} {S : ℤ} {w : ℝ} (hm0 : 0 ≤ m) (hm1 : m ≤ 1)
    (hS : 0 ≤ S) (hw : 0 ≤ w) : 0 ≤ allocate m S w := by
  unfold allocate
  rw [if_pos (totalWeight_pos hm0 hm1)]
  apply round_nonneg_of_nonneg
  have hS' : (0:ℝ) ≤ (S : ℝ) := by exact_mod_cast hS
  have := (totalWeight_pos hm0 hm1).le
  positivity

/-- The discovery count is non-negative whenever the playlist length is. -/
theorem discoveryCountOf_nonneg {L : ℤ} (hL : 0 ≤ L) (d : ℝ) :
    0 ≤ discoveryCountOf L d := by
  unfold discoveryCountOf
  rw [zero_cutoff_eq]
  split_ifs with h
  · exact le_refl 0
  · apply round_nonneg_of_nonneg
    have hL' : (0:ℝ) ≤ (L : ℝ) := by exact_mod_cast hL
    nlinarith [not_le.mp h]

/-- For discoverLevel `≤ 1` and length `≥ 1` the discovery count never
exceeds the playlist length, so the source total stays non-negative. -/
theorem discoveryCountOf_le {L : ℤ} {d : ℝ} (hL : 1 ≤ L) (hd1 : d ≤ 1) :
    discoveryCountOf L d ≤ L := by
  unfold discoveryCountOf
  rw [zero_cutoff_eq]
  split_ifs with h
  · omega
  · have hL' : (1:ℝ) ≤ (L : ℝ) := by exact_mod_cast hL
    have hcast : ((round ((L:ℝ) * d * 0.4) : ℤ) : ℝ) ≤ (L:ℝ) * d * 0.4 + 1/2 :=
      round_le_add_half _
    have hx : (L:ℝ) * d * 0.4 + 1/2 ≤ (L:ℝ) := by nlinarith [not_le.mp h]
    exact_mod_cast hcast.trans hx

/-- C5 (amended): for every mood, and every discoverLevel in `[0,1]` and
targetLength `≥ 1`, all channel counts except the liked one are non-negative
(the liked count absorbs the rounding drift and can be negative, as the
counterexample at mood 1, targetLength 23 shows). -/
theorem c5_amended (mood discoverLevel : ℝ) (L : ℤ)
    (hd0 : 0 ≤ discoverLevel) (hd1 : discoverLevel ≤ 1) (hL : 1 ≤ L) :
    0 ≤ (calculateMoodRecipe mood L discoverLevel).shazam ∧
    0 ≤ (calculateMoodRecipe mood L discoverLevel).acoustic ∧
    0 ≤ (calculateMoodRecipe mood L discoverLevel).a7xCore ∧
    0 ≤ (calculateMoodRecipe mood L discoverLevel).a7xSimilar ∧
    0 ≤ (calculateMoodRecipe mood L discoverLevel).rap ∧
    0 ≤ (calculateMoodRecipe mood L discoverLevel).discovery := by
  obtain ⟨hm0, hm1⟩ := clamp_mem mood
  have hS : 0 ≤ L - discoveryCountOf L discoverLevel := by
    have := discoveryCountOf_le hL hd1
    omega
  simp only [calculateMoodRecipe]
  refine ⟨allocate_nonneg hm0 hm1 hS ((by norm_num : (0:ℝ) ≤ 0.3).trans (shazamWeight_ge hm0 hm1)),
    allocate_nonneg hm0 hm1 hS (acousticWeight_nonneg _),
    allocate_nonneg hm0 hm1 hS (by norm_num [a7xCoreWeight]),
    allocate_nonneg hm0 hm1 hS (a7xSimilarWeight_nonneg hm0),
    allocate_nonneg hm0 hm1 hS (rapWeight_nonneg _),
    discoveryCountOf_nonneg (by omega) _⟩

/-- Witness for the amended C5 at mood 0.5, discoverLevel 0.5, length 10. -/
theorem c5_amended_witness :
    0 ≤ (calculateMoodRecipe 0.5 10 0.5).shazam ∧
    0 ≤ (calculateMoodRecipe 0.5 10 0.5).acoustic ∧
    0 ≤ (calculateMoodRecipe 0.5 10 0.5).a7xCore ∧
    0 ≤ (calculateMoodRecipe 0.5 10 0.5).a7xSimilar ∧
    0 ≤ (calculateMoodRecipe 0.5 10 0.5).rap ∧
    0 ≤ (calculateMoodRecipe 0.5 10 0.5).discovery :=
  c5_amended 0.5 0.5 10 (by norm_num) (by norm_num) (by norm_num)

/-- C8 counterexample: at discoverLevel 1 and targetLength 32 the discovery
count is `round(32 * 1 * 0.4) = round 12.8 = 13`, which exceeds 40% of the
target (`12.8`), so "never exceeds 40% of targetLength" is false. -/
theorem c8_counterexample :
    (calculateMoodRecipe 0 32 1).discovery = 13 ∧
    ¬ (((calculateMoodRecipe 0 32 1).discovery : ℝ) ≤ 0.4 * 32) := by
  have h : (calculateMoodRecipe 0 32 1).discovery = 13 := by
    simp only [calculateMoodRecipe]
    unfold discoveryCountOf
    rw [zero_cutoff_eq, if_neg (by norm_num), round_eq, Int.floor_eq_iff]
    norm_num
  rw [h]
  norm_num

/-- C8 (amended): the discovery count is 0 for discoverLevel `≤ 0` and
`round(targetLength * discoverLevel * 0.4)` otherwise; it never exceeds
`round(0.4 * targetLength)` — i.e. 40% of the mix up to the final rounding
(it can exceed the exact value `0.4 * targetLength` by the rounding, as the
counterexample at targetLength 32 shows); for discoverLevel 0.5 and
targetLength 50 it equals 10. -/
theorem c8_amended (mood discoverLevel : ℝ) (L : ℤ)
    (hd0 : 0 ≤ discoverLevel) (hd1 : discoverLevel ≤ 1) (hL : 1 ≤ L) :
    ((calculateMoodRecipe mood L discoverLevel).discovery =
      if discoverLevel ≤ 0 then 0 else round ((L:ℝ) * discoverLevel * 0.4)) ∧
    (calculateMoodRecipe mood L discoverLevel).discovery ≤ round (0.4 * (L:ℝ)) ∧
    (calculateMoodRecipe 0 50 0.5).discovery = 10 := by
  have hL' : (1:ℝ) ≤ (L : ℝ) := by exact_mod_cast hL
  refine ⟨?_, ?_, ?_⟩
  · simp only [calculateMoodRecipe]
    unfold discoveryCountOf
    rw [zero_cutoff_eq]
  · simp only [calculateMoodRecipe]
    unfold discoveryCountOf
    rw [zero_cutoff_eq]
    split_ifs with h
    · apply round_nonneg_of_nonneg
      nlinarith
    · rw [round_eq, round_eq]
      apply Int.floor_le_floor
      nlinarith [not_le.mp h]
  · simp only [calculateMoodRecipe]
    unfold discoveryCountOf
    rw [zero_cutoff_eq, if_neg (by norm_num), round_eq, Int.floor_eq_iff]
    norm_num

/-- Witness for the amended C8 at discoverLevel 0.5, targetLength 50. -/
theorem c8_amended_witness :
    ((calculateMoodRecipe 0 50 0.5).discovery =
      if (0.5:ℝ) ≤ 0 then 0 else round ((50:ℤ) * (0.5:ℝ) * 0.4)) ∧
    (calculateMoodRecipe 0 50 0.5).discovery ≤ round (0.4 * ((50:ℤ):ℝ)) ∧
    (calculateMoodRecipe 0 50 0.5).discovery = 10 :=
  c8_amended 0 0.5 50 (by norm_num) (by norm_num) (by norm_num)

/-- One pass leaves the number of queues unchanged. -/
theorem onePass_queues_length (target : ℕ) (qs : List (List Track)) :
    ∀ (result : List Track) (a : Bool),
      (onePass target qs result a).1.length = qs.length := by
  induction qs with
  | nil => intro result a; simp [onePass]
  | cons q qs ih =>
    intro result a
    cases q with
    | nil =>
      show ([] :: (onePass target qs result a).1).length = qs.length + 1
      simp [ih]
    | cons t rest =>
      cases hdup : result.any (fun x => x.id == t.id)
      · simp only [onePass, hdup, Bool.cond_false]
        split
        · simp
        · show (rest :: (onePass target qs (result ++ [t]) true).1).length = qs.length + 1
          simp [ih]
      · simp only [onePass, hdup, Bool.cond_true]
        split
        · simp
        · show (rest :: (onePass target qs result a).1).length = qs.length + 1
          simp [ih]

/-- One pass never shrinks the result. -/
theorem onePass_length_mono (target : ℕ) (qs : List (List Track)) :
    ∀ (result : List Track) (a : Bool),
      result.length ≤ (onePass target qs result a).2.1.length := by
  induction qs with
  | nil => intro result a; simp [onePass]
  | cons q qs ih =>
    intro result a
    cases q with
    | nil =>
      show result.length ≤ (onePass target qs result a).2.1.length
      exact ih result a
    | cons t rest =>
      cases hdup : result.any (fun x => x.id == t.id)
      · simp only [onePass, hdup, Bool.cond_false]
        split
        · show result.length ≤ (result ++ [t]).length
          simp
        · show result.length ≤ (onePass target qs (result ++ [t]) true).2.1.length
          exact le_trans (by simp) (ih (result ++ [t]) true)
      · simp only [onePass, hdup, Bool.cond_true]
        split
        · exact le_rfl
        · show result.length ≤ (onePass target qs result a).2.1.length
          exact ih result a

/-- When entered below the target, one pass never overruns the target:
each append is immediately followed by the `break` check. -/
theorem onePass_le_target (target : ℕ) (qs : List (List Track)) :
    ∀ (result : List Track) (a : Bool), result.length < target →
      (onePass target qs result a).2.1.length ≤ target := by
  induction qs with
  | nil => intro result a h; simpa [onePass] using h.le
  | cons q qs ih =>
    intro result a h
    cases q with
    | nil =>
      show (onePass target qs result a).2.1.length ≤ target
      exact ih result a h
    | cons t rest =>
      cases hdup : result.any (fun x => x.id == t.id)
      · simp only [onePass, hdup, Bool.cond_false]
        split
        · show (result ++ [t]).length ≤ target
          simp only [List.length_append, List.length_singleton]
          omega
        · rename_i hbreak
          show (onePass target qs (result ++ [t]) true).2.1.length ≤ target
          apply ih (result ++ [t]) true
          simpa using hbreak
      · simp only [onePass, hdup, Bool.cond_true]
        split
        · exact h.le
        · show (onePass target qs result a).2.1.length ≤ target
          exact ih result a h

/-- If a pass reports `anyAdded` although the flag it was given was
cleared, the result strictly grew. -/
theorem onePass_added_grows (target : ℕ) (qs : List (List Track)) :
    ∀ (result : List Track) (a : Bool), (onePass target qs result a).2.2 = true →
      a = true ∨ result.length < (onePass target qs result a).2.1.length := by
  induction qs with
  | nil => intro result a h; left; simpa [onePass] using h
  | cons q qs ih =>
    intro result a h
    cases q with
    | nil =>
      have h2 : (onePass target qs result a).2.2 = true := h
      exact ih result a h2
    | cons t rest =>
      cases hdup : result.any (fun x => x.id == t.id)
      · right
        simp only [onePass, hdup, Bool.cond_false]
        split
        · show result.length < (result ++ [t]).length
          simp
        · show result.length < (onePass target qs (result ++ [t]) true).2.1.length
          exact lt_of_lt_of_le (by simp)
            (onePass_length_mono target qs (result ++ [t]) true)
      · simp only [onePass, hdup, Bool.cond_true] at h ⊢
        split at h
        · left; exact h
        · rename_i hbreak
          rw [if_neg hbreak]
          have h2 : (onePass target qs result a).2.2 = true := h
          exact ih result a h2

/-- One pass preserves duplicate-freedom of the result's ids: a track is
appended only when its id is absent. -/
theorem onePass_nodup (target : ℕ) (qs : List (List Track)) :
    ∀ (result : List Track) (a : Bool), (trackIds result).Nodup →
      (trackIds (onePass target qs result a).2.1).Nodup := by
  induction qs with
  | nil => intro result a h; simpa [onePass] using h
  | cons q qs ih =>
    intro result a h
    cases q with
    | nil =>
      show (trackIds (onePass target qs result a).2.1).Nodup
      exact ih result a h
    | cons t rest =>
      cases hdup : result.any (fun x => x.id == t.id)
      · have ht : t.id ∉ trackIds result := by
          intro hmem
          rw [trackIds, List.mem_map] at hmem
          obtain ⟨x, hx, hxe⟩ := hmem
          have hany : result.any (fun y => y.id == t.id) = true :=
            List.any_eq_true.mpr ⟨x, hx, by simp [hxe]⟩
          rw [hdup] at hany
          exact Bool.false_ne_true hany
        have hnd : (trackIds (result ++ [t])).Nodup := by
          rw [trackIds, List.map_append, List.nodup_append]
          refine ⟨h, List.nodup_singleton _, ?_⟩
          intro x hx hmem
          rw [List.map_singleton, List.mem_singleton] at hmem
          exact ht (hmem ▸ hx)
        simp only [onePass, hdup, Bool.cond_false]
        split
        · exact hnd
        · show (trackIds (onePass target qs (result ++ [t]) true).2.1).Nodup
          exact ih (result ++ [t]) true hnd
      · simp only [onePass, hdup, Bool.cond_true]
        split
        · exact h
        · show (trackIds (onePass target qs result a).2.1).Nodup
          exact ih result a h

/-- One pass pops at most one track from each queue. -/
theorem onePass_pop_le_one (target : ℕ) (qs : List (List Track)) :
    ∀ (result : List Track) (a : Bool) (i : ℕ),
      (qs.getD i []).length ≤ ((onePass target qs result a).1.getD i []).length + 1 := by
  induction qs with
  | nil => intro result a i; simp [onePass]
  | cons q qs ih =>
    intro result a i
    cases q with
    | nil =>
      cases i with
      | zero =>
        show (List.length []) ≤ (([] :: (onePass target qs result a).1).getD 0 []).length + 1
        simp
      | succ i =>
        show (qs.getD i []).length ≤ (([] :: (onePass target qs result a).1).getD (i + 1) []).length + 1
        rw [List.getD_cons_succ]
        exact ih result a i
    | cons t rest =>
      cases hdup : result.any (fun x => x.id == t.id)
      · simp only [onePass, hdup, Bool.cond_false]
        split
        · cases i with
          | zero =>
            show (t :: rest).length ≤ ((rest :: qs).getD 0 []).length + 1
            simp
          | succ i =>
            show (qs.getD i []).length ≤ ((rest :: qs).getD (i + 1) []).length + 1
            rw [List.getD_cons_succ]
            exact Nat.le_succ _
        · cases i with
          | zero =>
            show (t :: rest).length ≤
              ((rest :: (onePass target qs (result ++ [t]) true).1).getD 0 []).length + 1
            simp
          | succ i =>
            show (qs.getD i []).length ≤
              ((rest :: (onePass target qs (result ++ [t]) true).1).getD (i + 1) []).length + 1
            rw [List.getD_cons_succ]
            exact ih (result ++ [t]) true i
      · simp only [onePass, hdup, Bool.cond_true]
        split
        · cases i with
          | zero =>
            show (t :: rest).length ≤ ((rest :: qs).getD 0 []).length + 1
            simp
          | succ i =>
            show (qs.getD i []).length ≤ ((rest :: qs).getD (i + 1) []).length + 1
            rw [List.getD_cons_succ]
            exact Nat.le_succ _
        · cases i with
          | zero =>
            show (t :: rest).length ≤
              ((rest :: (onePass target qs result a).1).getD 0 []).length + 1
            simp
          | succ i =>
            show (qs.getD i []).length ≤
              ((rest :: (onePass target qs result a).1).getD (i + 1) []).length + 1
            rw [List.getD_cons_succ]
            exact ih result a i

/-- One pass appends at most one track per channel queue, so the result
grows by at most the number of channels. -/
theorem onePass_append_le (target : ℕ) (qs : List (List Track)) :
    ∀ (result : List Track) (a : Bool),
      (onePass target qs result a).2.1.length ≤ result.length + qs.length := by
  induction qs with
  | nil => intro result a; simp [onePass]
  | cons q qs ih =>
    intro result a
    cases q with
    | nil =>
      show (onePass target qs result a).2.1.length ≤ result.length + (qs.length + 1)
      exact le_trans (ih result a) (by omega)
    | cons t rest =>
      cases hdup : result.any (fun x => x.id == t.id)
      · simp only [onePass, hdup, Bool.cond_false]
        split
        · show (result ++ [t]).length ≤ result.length + (qs.length + 1)
          simp only [List.length_append, List.length_singleton]
          omega
        · show (onePass target qs (result ++ [t]) true).2.1.length ≤
            result.length + (qs.length + 1)
          refine le_trans (ih (result ++ [t]) true) ?_
          simp only [List.length_append, List.length_singleton]
          omega
      · simp only [onePass, hdup, Bool.cond_true]
        split
        · show result.length ≤ result.length + (qs.length + 1)
          omega
        · show (onePass target qs result a).2.1.length ≤ result.length + (qs.length + 1)
          exact le_trans (ih result a) (by omega)

/-- A loop entered with a cleared `anyAdded` flag exits immediately. -/
theorem interleaveGo_false (target fuel : ℕ) (qs : List (List Track))
    (result : List Track) :
    interleaveGo target fuel qs result false = (qs, result, false) := by
  cases fuel <;> simp [interleaveGo]

/-- The interleave loop preserves duplicate-freedom of the result ids. -/
theorem interleaveGo_nodup (target : ℕ) :
    ∀ (fuel : ℕ) (qs : List (List Track)) (result : List Track) (a : Bool),
      (trackIds result).Nodup →
      (trackIds (interleaveGo target fuel qs result a).2.1).Nodup := by
  intro fuel
  induction fuel with
  | zero => intro qs result a h; simpa [interleaveGo] using h
  | succ fuel ih =>
    intro qs result a h
    simp only [interleaveGo]
    split
    · exact ih _ _ _ (onePass_nodup target qs result false h)
    · exact h

/-- The interleave loop never overruns the target. -/
theorem interleaveGo_le_target (target : ℕ) :
    ∀ (fuel : ℕ) (qs : List (List Track)) (result : List Track) (a : Bool),
      result.length ≤ target →
      (interleaveGo target fuel qs result a).2.1.length ≤ target := by
  intro fuel
  induction fuel with
  | zero => intro qs result a h; simpa [interleaveGo] using h
  | succ fuel ih =>
    intro qs result a h
    simp only [interleaveGo]
    split
    · rename_i hcond
      exact ih _ _ _ (onePass_le_target target qs result false hcond.1)
    · exact h

/-- With enough fuel the returned state satisfies the loop's exit
condition: the result reached the target, or the last pass added nothing. -/
theorem interleaveGo_exit (target : ℕ) :
    ∀ (fuel : ℕ) (qs : List (List Track)) (result : List Track) (a : Bool),
      target - result.length < fuel →
      target ≤ (interleaveGo target fuel qs result a).2.1.length ∨
        (interleaveGo target fuel qs result a).2.2 = false := by
  intro fuel
  induction fuel with
  | zero => intro qs result a h; exact absurd h (Nat.not_lt_zero _)
  | succ fuel ih =>
    intro qs result a h
    simp only [interleaveGo]
    split
    · rename_i hcond
      cases hp : (onePass target qs result false).2.2 with
      | false =>
        rw [interleaveGo_false]
        right; rfl
      | true =>
        have hgrow : result.length < (onePass target qs result false).2.1.length := by
          rcases onePass_added_grows target qs result false hp with h1 | h1
          · exact absurd h1 (by simp)
          · exact h1
        exact ih _ _ _ (by omega)
    · rename_i hcond
      rw [not_and_or] at hcond
      rcases hcond with h1 | h1
      · left
        show target ≤ result.length
        omega
      · right
        show a = false
        simpa using h1

/-- The value of the loop does not depend on the fuel once the fuel
exceeds the worst-case number of passes, certifying that the fuel used by
`interleaveResultState` is enough to model the unbounded `while` loop. -/
theorem interleaveGo_fuel_stable (target : ℕ) :
    ∀ (fuel fuel2 : ℕ) (qs : List (List Track)) (result : List Track) (a : Bool),
      target - result.length < fuel → target - result.length < fuel2 →
      interleaveGo target fuel qs result a = interleaveGo target fuel2 qs result a := by
  intro fuel
  induction fuel with
  | zero => intro fuel2 qs result a h _; exact absurd h (Nat.not_lt_zero _)
  | succ fuel ih =>
    intro fuel2 qs result a h h2
    cases fuel2 with
    | zero => exact absurd h2 (Nat.not_lt_zero _)
    | succ fuel2 =>
      simp only [interleaveGo]
      split
      · rename_i hcond
        cases hp : (onePass target qs result false).2.2 with
        | false => rw [interleaveGo_false, interleaveGo_false]
        | true =>
          have hgrow : result.length < (onePass target qs result false).2.1.length := by
            rcases onePass_added_grows target qs result false hp with h1 | h1
            · exact absurd h1 (by simp)
            · exact h1
          exact ih _ _ _ _ (by omega) (by omega)
      · rfl

/-- C7 counterexample: on the single queue `[a, a, b]` (duplicate id up
front) with target 5, the second pass pops only the duplicate `a`, sets no
`anyAdded`, and the loop terminates with the result `[a]` (not full) while
the queue still holds `b` — so "terminates exactly when the result is full
or every queue is empty" is false. -/
theorem c7_counterexample :
    (interleaveResultState 5 [[mkTrack 1 "a", mkTrack 1 "a", mkTrack 2 "b"]]).2.1 =
      [mkTrack 1 "a"] ∧
    (interleaveResultState 5 [[mkTrack 1 "a", mkTrack 1 "a", mkTrack 2 "b"]]).1 =
      [[mkTrack 2 "b"]] ∧
    (interleaveResultState 5 [[mkTrack 1 "a", mkTrack 1 "a", mkTrack 2 "b"]]).2.1.length < 5 ∧
    ¬ ((interleaveResultState 5
        [[mkTrack 1 "a", mkTrack 1 "a", mkTrack 2 "b"]]).1.all List.isEmpty = true) := by
  refine ⟨rfl, rfl, by decide, by decide⟩

/-- C7 (amended): for every collection of channel queues and every
targetLength, the Interleaver's output contains no two entries with the
same track id and has length at most targetLength; it terminates when the
result is full or when a complete pass adds no new track — in particular
when every queue is empty, but also, as the counterexample shows, when a
pass pops only duplicate ids while queues remain non-empty. -/
theorem c7_amended (target : ℕ) (queues : List (List Track)) :
    (trackIds (interleaveResultState target queues).2.1).Nodup ∧
    (interleaveResultState target queues).2.1.length ≤ target ∧
    (target ≤ (interleaveResultState target queues).2.1.length ∨
      (interleaveResultState target queues).2.2 = false) := by
  unfold interleaveResultState
  exact ⟨interleaveGo_nodup target (target + 1) queues [] true (by simp [trackIds]),
    interleaveGo_le_target target (target + 1) queues [] true (by simp),
    interleaveGo_exit target (target + 1) queues [] true (by omega)⟩

/-- C9 counterexample: when only the fourth channel queue is non-empty and
holds eight tracks with distinct ids, the Interleaver emits all eight
consecutively — a same-channel run of length 8 > 7 (the number of
channels), so the claimed run-length bound is false precisely in the
"some queues are empty" situation the claim covers. -/
theorem c9_counterexample :
    (interleaveResultState 35 [[], [], [],
      [mkTrack 1 "e", mkTrack 2 "e", mkTrack 3 "e", mkTrack 4 "e",
       mkTrack 5 "e", mkTrack 6 "e", mkTrack 7 "e", mkTrack 8 "e"], [], [], []]).2.1 =
      [mkTrack 1 "e", mkTrack 2 "e", mkTrack 3 "e", mkTrack 4 "e",
       mkTrack 5 "e", mkTrack 6 "e", mkTrack 7 "e", mkTrack 8 "e"] ∧
    7 < (interleaveResultState 35 [[], [], [],
      [mkTrack 1 "e", mkTrack 2 "e", mkTrack 3 "e", mkTrack 4 "e",
       mkTrack 5 "e", mkTrack 6 "e", mkTrack 7 "e", mkTrack 8 "e"], [], [], []]).2.1.length ∧
    (∀ t ∈ (interleaveResultState 35 [[], [], [],
      [mkTrack 1 "e", mkTrack 2 "e", mkTrack 3 "e", mkTrack 4 "e",
       mkTrack 5 "e", mkTrack 6 "e", mkTrack 7 "e", mkTrack 8 "e"], [], [], []]).2.1,
      t ∈ ([[], [], [],
        [mkTrack 1 "e", mkTrack 2 "e", mkTrack 3 "e", mkTrack 4 "e",
         mkTrack 5 "e", mkTrack 6 "e", mkTrack 7 "e", mkTrack 8 "e"], [], [], []] :
          List (List Track)).getD 3 []) := by
  refine ⟨rfl, by decide, by decide⟩

/-- C9 (amended): within a single round-robin pass each channel queue is
popped at most once and the result grows by at most the number of channels,
so no pass contributes two tracks of one channel; a run of consecutive
same-channel tracks longer than the number of channels can occur only
across passes in which every other queue is empty or yields only
duplicates, as the counterexample exhibits. -/
theorem c9_amended (target : ℕ) (queues : List (List Track)) (result : List Track)
    (a : Bool) :
    (onePass target queues result a).1.length = queues.length ∧
    (∀ i : ℕ, (queues.getD i []).length ≤
      ((onePass target queues result a).1.getD i []).length + 1) ∧
    (onePass target queues result a).2.1.length ≤ result.length + queues.length :=
  ⟨onePass_queues_length target queues result a,
   onePass_pop_le_one target queues result a,
   onePass_append_le target queues result a⟩

/-- A track surviving `dedup pool existing` has an id absent from `existing`. -/
theorem mem_dedup_not_in {u r : List Track} {t : Track} (ht : t ∈ dedup u r) :
    t.id ∉ trackIds r := by
  rw [dedup, List.mem_filter] at ht
  intro hmem
  rw [trackIds, List.mem_map] at hmem
  obtain ⟨e, he, hei⟩ := hmem
  have hany : r.any (fun e => e.id == t.id) = true :=
    List.any_eq_true.mpr ⟨e, he, by simp [hei]⟩
  rw [hany] at ht
  simpa using ht.2

/-- `dedup` returns a sublist of the pool. -/
theorem dedup_sublist (u r : List Track) : List.Sublist (dedup u r) u :=
  List.filter_sublist u

/-- The fallback fill keeps the result ids duplicate-free as long as the
union it draws from has duplicate-free ids (the amendment hypothesis). -/
theorem fallbackFill_nodup (target : ℕ) (u r : List Track)
    (hr : (trackIds r).Nodup) (hu : (trackIds u).Nodup) :
    (trackIds (fallbackFill target u r).1).Nodup := by
  unfold fallbackFill
  split
  · show (trackIds (r ++ (dedup u r).take (target - r.length))).Nodup
    rw [trackIds, List.map_append, List.nodup_append]
    refine ⟨hr, ?_, ?_⟩
    · have hsub : List.Sublist ((dedup u r).take (target - r.length)) u :=
        (List.take_sublist _ _).trans (dedup_sublist u r)
      exact hu.sublist (hsub.map _)
    · intro x hxr hxd
      rw [List.mem_map] at hxd
      obtain ⟨t, htm, hti⟩ := hxd
      apply mem_dedup_not_in (List.take_subset _ _ htm)
      rw [hti]
      exact hxr
  · exact hr

/-- If even after the fallback fill the (truncated) result is short, the
fallback branch ran and attached a warning. -/
theorem fallbackFill_warning (target : ℕ) (u r : List Track)
    (h : ((fallbackFill target u r).1.take target).length < target) :
    (fallbackFill target u r).2.isSome = true := by
  by_cases hc : r.length < target
  · unfold fallbackFill
    rw [if_pos hc]
    rfl
  · exfalso
    unfold fallbackFill at h
    rw [if_neg hc] at h
    have h2 : (List.take target r).length < target := h
    rw [List.length_take] at h2
    omega

/-- The ids of a `mapToRunResult` output are the ids of its input tracks. -/
theorem mapToRunResult_ids (tracks : List Track) (s : String)
    (d : List Track) (w : Option String) :
    (mapToRunResult tracks s d w).tracks.map NormTrack.id = trackIds tracks := by
  simp [mapToRunResult, normalizeTrack, trackIds, List.map_map]

/-- `mapToRunResult` keeps the number of tracks. -/
theorem mapToRunResult_len (tracks : List Track) (s : String)
    (d : List Track) (w : Option String) :
    (mapToRunResult tracks s d w).tracks.length = tracks.length := by
  simp [mapToRunResult]

/-- `mapToRunResult` passes the warning through. -/
theorem mapToRunResult_warning (tracks : List Track) (s : String)
    (d : List Track) (w : Option String) :
    (mapToRunResult tracks s d w).warning = w := rfl

/-- The Smart Mix core result never exceeds the target length (the final
`slice(0, totalTarget)` guarantees it unconditionally). -/
theorem generateSmartMixCore_tracks_le (shuffle : ℕ → List Track → List Track)
    (target : ℕ) (recipe : MoodRecipe)
    (likedPool shazamPool acousticPool rapPool a7xCorePool a7xSimilarPool
      discoveryTracks : List Track) :
    (generateSmartMixCore shuffle target recipe likedPool shazamPool acousticPool
      rapPool a7xCorePool a7xSimilarPool discoveryTracks).tracks.length ≤ target := by
  simp only [generateSmartMixCore, mapToRunResult_len, List.length_take]
  omega

/-- When the Smart Mix core returns fewer tracks than the target, its
warning is set. -/
theorem generateSmartMixCore_short_warning (shuffle : ℕ → List Track → List Track)
    (target : ℕ) (recipe : MoodRecipe)
    (likedPool shazamPool acousticPool rapPool a7xCorePool a7xSimilarPool
      discoveryTracks : List Track)
    (h : (generateSmartMixCore shuffle target recipe likedPool shazamPool acousticPool
      rapPool a7xCorePool a7xSimilarPool discoveryTracks).tracks.length < target) :
    (generateSmartMixCore shuffle target recipe likedPool shazamPool acousticPool
      rapPool a7xCorePool a7xSimilarPool discoveryTracks).warning.isSome = true := by
  simp only [generateSmartMixCore, mapToRunResult_len, mapToRunResult_warning] at h ⊢
  exact fallbackFill_warning _ _ _ h

/-- When the union of the fetched pools has duplicate-free ids and the
fallback shuffle is a permutation, the Smart Mix core output ids are
duplicate-free. -/
theorem generateSmartMixCore_nodup (shuffle : ℕ → List Track → List Track)
    (target : ℕ) (recipe : MoodRecipe)
    (likedPool shazamPool acousticPool rapPool a7xCorePool a7xSimilarPool
      discoveryTracks : List Track)
    (hperm : (shuffle 6 (likedPool ++ shazamPool ++ acousticPool ++ rapPool ++
      a7xCorePool)).Perm (likedPool ++ shazamPool ++ acousticPool ++ rapPool ++
      a7xCorePool))
    (hu : (trackIds (likedPool ++ shazamPool ++ acousticPool ++ rapPool ++
      a7xCorePool)).Nodup) :
    ((generateSmartMixCore shuffle target recipe likedPool shazamPool acousticPool
      rapPool a7xCorePool a7xSimilarPool discoveryTracks).tracks.map
        NormTrack.id).Nodup := by
  simp only [generateSmartMixCore, mapToRunResult_ids]
  refine (fallbackFill_nodup _ _ _ ?_ ?_).sublist ((List.take_sublist _ _).map _)
  · exact interleaveGo_nodup target (target + 1) _ [] true (by simp [trackIds])
  · exact ((hperm.map Track.id).nodup_iff).mpr hu

/-- C2 counterexample: a rejected liked-songs fetch is not caught — the
four main channel fetches run under `Promise.all` without `.catch`, so the
whole Smart Mix run aborts with that error instead of treating the channel
as an empty pool. -/
theorem c2_counterexample :
    generateSmartMixRun (fun _ l => l) (fun _ => false) (fun _ => false) false 35
      { liked := 5, shazam := 5, acoustic := 5, a7xCore := 5, a7xSimilar := 5,
        rap := 5, discovery := 5 } 0
      (Except.error "network error") (Except.ok []) (Except.ok []) (Except.ok [])
      (Except.ok []) [] = Except.error "network error" := rfl

/-- C2 (amended): only the A7X-station fetch is `.catch`-guarded — its
failure is equivalent to an empty pool and, when the four main fetches
(liked, shazam, acoustic, rap) succeed, the run succeeds regardless of the
A7X outcome; a failure of any of the four main fetches, by contrast, aborts
the run (counterexample). -/
theorem c2_amended (shuffle : ℕ → List Track → List Track)
    (isBlocked isRestricted : ℕ → Bool) (useMock : Bool) (target : ℕ)
    (recipe : MoodRecipe) (discoverLevel : ℚ)
    (liked shazam acoustic rap : List Track) (e : String)
    (searchPools : List (List Track)) :
    generateSmartMixRun shuffle isBlocked isRestricted useMock target recipe
      discoverLevel (Except.ok liked) (Except.ok shazam) (Except.ok acoustic)
      (Except.ok rap) (Except.error e) searchPools =
    generateSmartMixRun shuffle isBlocked isRestricted useMock target recipe
      discoverLevel (Except.ok liked) (Except.ok shazam) (Except.ok acoustic)
      (Except.ok rap) (Except.ok []) searchPools ∧
    (generateSmartMixRun shuffle isBlocked isRestricted useMock target recipe
      discoverLevel (Except.ok liked) (Except.ok shazam) (Except.ok acoustic)
      (Except.ok rap) (Except.error e) searchPools).isOk = true :=
  ⟨rfl, rfl⟩

/-- C3 counterexample: a track id present in two different fetched pools
(here id 2 in the shazam and acoustic pools) can be appended twice by the
Fallback Filler, because `dedup` removes only ids already in the result,
not internal duplicates of the pool union — the final track list is
`[1, 2, 2]`. -/
theorem c3_counterexample :
    (generateSmartMixRun (fun _ l => l) (fun _ => false) (fun _ => false) false 3
      { liked := 1, shazam := 0, acoustic := 0, a7xCore := 0, a7xSimilar := 0,
        rap := 0, discovery := 0 } 0
      (Except.ok [mkTrack 1 "liked"]) (Except.ok [mkTrack 2 "shazam"])
      (Except.ok [mkTrack 2 "acoustic"]) (Except.ok []) (Except.ok [])
      []).map (fun r => r.tracks.map NormTrack.id) = Except.ok [1, 2, 2] ∧
    ¬ ([1, 2, 2] : List ℕ).Nodup :=
  ⟨rfl, by decide⟩

/-- C3 (amended): the returned track list never exceeds targetLength, and
its ids are duplicate-free provided the concatenation of the fetched pools
(liked, shazam, acoustic, rap, A7X core) contains no two entries with the
same id — i.e. the pools are pairwise id-disjoint AND each pool is
internally duplicate-free.  Both halves of the hypothesis are needed: the
fallback `dedup` removes only ids already in the result, so an id occurring
twice in the union (whether across two pools, as in the counterexample, or
twice inside a single pool) can be appended twice. -/
theorem c3_amended (shuffle : ℕ → List Track → List Track)
    (hshuffle : ∀ i l, (shuffle i l).Perm l)
    (isBlocked isRestricted : ℕ → Bool) (useMock : Bool) (target : ℕ)
    (recipe : MoodRecipe) (discoverLevel : ℚ)
    (liked shazam acoustic rap a7x : List Track) (searchPools : List (List Track))
    (hu : (trackIds (liked ++ shazam ++ acoustic ++ rap ++ a7x)).Nodup) :
    ∀ r : RunResultM,
      generateSmartMixRun shuffle isBlocked isRestricted useMock target recipe
        discoverLevel (Except.ok liked) (Except.ok shazam) (Except.ok acoustic)
        (Except.ok rap) (Except.ok a7x) searchPools = Except.ok r →
      (r.tracks.map NormTrack.id).Nodup ∧ r.tracks.length ≤ target := by
  intro r hr
  simp only [generateSmartMixRun, filterPool, fetchA7XStationCore, Except.bind,
    Except.ok.injEq] at hr
  subst hr
  constructor
  · apply generateSmartMixCore_nodup
    · exact hshuffle 6 _
    · have hsub : List.Sublist
          (liked.filter (trackFilter isBlocked isRestricted useMock) ++
          shazam.filter (trackFilter isBlocked isRestricted useMock) ++
          acoustic.filter (trackFilter isBlocked isRestricted useMock) ++
          rap.filter (trackFilter isBlocked isRestricted useMock) ++
          a7x.filter (trackFilter isBlocked isRestricted useMock))
          (liked ++ shazam ++ acoustic ++ rap ++ a7x) :=
        ((((List.filter_sublist _).append (List.filter_sublist _)).append
          (List.filter_sublist _)).append (List.filter_sublist _)).append
          (List.filter_sublist _)
      exact hu.sublist (hsub.map _)
  · exact generateSmartMixCore_tracks_le _ _ _ _ _ _ _ _ _ _

/-- Witness for the amended C3: identity shuffles, pools `{1}` and `{2}`
with pairwise distinct ids, target 3 — the output ids are duplicate-free
and the length is within target. -/
theorem c3_amended_witness :
    (trackIds ([mkTrack 1 "L"] ++ [mkTrack 2 "S"] ++ [] ++ [] ++ [])).Nodup ∧
    ((generateSmartMixCore (fun _ l => l) 3
      { liked := 1, shazam := 1, acoustic := 0, a7xCore := 0, a7xSimilar := 0,
        rap := 0, discovery := 0 }
      [mkTrack 1 "L"] [mkTrack 2 "S"] [] [] [] [] []).tracks.map NormTrack.id).Nodup ∧
    (generateSmartMixCore (fun _ l => l) 3
      { liked := 1, shazam := 1, acoustic := 0, a7xCore := 0, a7xSimilar := 0,
        rap := 0, discovery := 0 }
      [mkTrack 1 "L"] [mkTrack 2 "S"] [] [] [] [] []).tracks.length ≤ 3 := by
  have h := c3_amended (fun _ l => l) (fun _ l => List.Perm.refl l)
    (fun _ => false) (fun _ => false) false 3
    { liked := 1, shazam := 1, acoustic := 0, a7xCore := 0, a7xSimilar := 0,
      rap := 0, discovery := 0 } 0
    [mkTrack 1 "L"] [mkTrack 2 "S"] [] [] [] [] (by decide) _ rfl
  exact ⟨by decide, h.1, h.2⟩

/-- C6 counterexample: with every pool empty the Smart Mix run returns
`Except.ok` with an empty track list and a fallback warning — it does not
raise an error, contradicting the claim that an all-empty outcome is
surfaced as an explicit error. -/
theorem c6_counterexample :
    (generateSmartMixRun (fun _ l => l) (fun _ => false) (fun _ => false) false 35
      { liked := 5, shazam := 5, acoustic := 5, a7xCore := 5, a7xSimilar := 5,
        rap := 5, discovery := 5 } 0
      (Except.ok []) (Except.ok []) (Except.ok []) (Except.ok []) (Except.ok [])
      []).map (fun r => (r.tracks, r.warning)) =
    Except.ok ([], some "Some sources were limited. Added 0 fallback tracks.") := rfl

/-- C6 (amended): the zero-track error exists only on the single-source
path — `generateSingleSourceResult` throws exactly when its take is empty;
the Smart Mix path never raises once its four main fetches succeed, and a
short (including empty) Smart Mix result carries a warning instead. -/
theorem c6_amended (shuffleS : List Track → List Track) (filt : Track → Bool)
    (pl : List Track) (targetS : ℕ) (optionName : String)
    (shuffle : ℕ → List Track → List Track) (isBlocked isRestricted : ℕ → Bool)
    (useMock : Bool) (target : ℕ) (recipe : MoodRecipe) (discoverLevel : ℚ)
    (liked shazam acoustic rap a7x : List Track) (searchPools : List (List Track)) :
    (generateSingleSourceCore shuffleS filt (Except.ok pl) targetS optionName =
        Except.error ("No tracks found for " ++ optionName ++
          ". Check that your playlists transferred to Apple Music.")
      ↔ takeShuffled shuffleS (pl.filter filt) (targetS : ℤ) = []) ∧
    (generateSmartMixRun shuffle isBlocked isRestricted useMock target recipe
      discoverLevel (Except.ok liked) (Except.ok shazam) (Except.ok acoustic)
      (Except.ok rap) (Except.ok a7x) searchPools).isOk = true ∧
    (∀ r : RunResultM,
      generateSmartMixRun shuffle isBlocked isRestricted useMock target recipe
        discoverLevel (Except.ok liked) (Except.ok shazam) (Except.ok acoustic)
        (Except.ok rap) (Except.ok a7x) searchPools = Except.ok r →
      r.tracks.length < target → r.warning.isSome = true) := by
  refine ⟨?_, rfl, ?_⟩
  · constructor
    · intro h
      by_cases hlen : (takeShuffled shuffleS (pl.filter filt) (targetS : ℤ)).length = 0
      · exact List.length_eq_zero.mp hlen
      · exfalso
        simp only [generateSingleSourceCore, filterPool, Except.bind] at h
        rw [if_neg hlen] at h
        exact Except.noConfusion h
    · intro h
      simp only [generateSingleSourceCore, filterPool, Except.bind]
      rw [if_pos (by rw [h]; rfl)]
  · intro r hr hshort
    simp only [generateSmartMixRun, filterPool, fetchA7XStationCore, Except.bind,
      Except.ok.injEq] at hr
    subst hr
    exact generateSmartMixCore_short_warning _ _ _ _ _ _ _ _ _ _ hshort

/-- Witness for the amended C6: with all pools empty the Smart Mix run is
`ok`, its result is short, and the warning is present. -/
theorem c6_amended_witness :
    (generateSmartMixRun (fun _ l => l) (fun _ => false) (fun _ => false) false 35
      { liked := 5, shazam := 5, acoustic := 5, a7xCore := 5, a7xSimilar := 5,
        rap := 5, discovery := 5 } 0
      (Except.ok []) (Except.ok []) (Except.ok []) (Except.ok []) (Except.ok [])
      []).isOk = true ∧
    (generateSmartMixCore (fun _ l => l) 35
      { liked := 5, shazam := 5, acoustic := 5, a7xCore := 5, a7xSimilar := 5,
        rap := 5, discovery := 5 } [] [] [] [] [] [] []).tracks.length < 35 ∧
    (generateSmartMixCore (fun _ l => l) 35
      { liked := 5, shazam := 5, acoustic := 5, a7xCore := 5, a7xSimilar := 5,
        rap := 5, discovery := 5 } [] [] [] [] [] [] []).warning.isSome = true := by
  have h := c6_amended (fun l => l) (fun _ => true) [] 1 "Liked Songs"
    (fun _ l => l) (fun _ => false) (fun _ => false) false 35
    { liked := 5, shazam := 5, acoustic := 5, a7xCore := 5, a7xSimilar := 5,
      rap := 5, discovery := 5 } 0 [] [] [] [] [] []
  exact ⟨h.2.1, by decide, h.2.2 _ rfl (by decide)⟩

/-- C10: the Discovery Resolver excludes catalog results only by the known
ids (liked + shazam); the Block and Cooldown stores are never consulted for
it, so a blocked track (id 99 here) reaches the final RunResult track list
through the discovery channel, even though the very same filter would have
removed it from any channel pool (third conjunct). -/
theorem c10_discovery_bypasses_block :
    (generateSmartMixRun (fun _ l => l) (fun i => i == 99) (fun _ => false) false 2
      { liked := 1, shazam := 0, acoustic := 0, a7xCore := 0, a7xSimilar := 0,
        rap := 0, discovery := 1 } 1
      (Except.ok [mkTrack 1 "liked"]) (Except.ok []) (Except.ok []) (Except.ok [])
      (Except.ok []) [[mkTrack 99 "discovered"]]).map
        (fun r => r.tracks.map NormTrack.id) = Except.ok [1, 99] ∧
    (fun i : ℕ => i == 99) 99 = true ∧
    filterPool (trackFilter (fun i => i == 99) (fun _ => false) false)
      (Except.ok [mkTrack 99 "discovered"]) = Except.ok [] :=
  ⟨rfl, rfl, rfl⟩

end AppleMusicGetReady
